import Mathlib

/-!
Shallow embedding of the two example programs of this repository:

* Component A, `src/all/test_package_old/main.cpp`: a straight-line `main`
  that sets `a = 5`, `b = 12`, `c = a + b`, prints a greeting with
  `std::puts`, then two `std::printf` lines, and returns 0.
* Component B, `src/demos/cpp-modules/main.cpp`: a straight-line `main`
  that prints four fixed banner lines and two `sum(...) = ...` lines via
  `std::println`, calling an externally linked `test::sum` once on the
  integer pair (5, 6) and once on the double pair (7.2, 2.5), and
  returns 0.

Standard output is modelled as a list of characters.  The externally
linked `test::sum` is a parameter of Component B's embedding (a pair of
functions, one per argument type it is called at).  The numeric literals
7.2 and 2.5 of the source are modelled by the exact rationals they
denote; at these inputs the real IEEE double computation 7.2 + 2.5
rounds to the double nearest 9.7, whose shortest round-trip display is
"9.7", so the rational model and the C++ observable output agree.
-/

set_option maxRecDepth 8192

namespace Toolchain

/-- One decimal digit character, as the digits produced by `%d` and by
the default numeric formatting of `std::format`. -/
def digitChar (d : Nat) : Char :=
  match d with
  | 0 => '0' | 1 => '1' | 2 => '2' | 3 => '3' | 4 => '4'
  | 5 => '5' | 6 => '6' | 7 => '7' | 8 => '8' | _ => '9'

/-- Decimal digits of a natural number, most significant first; the
first argument is fuel bounding the recursion depth. -/
def natDecimalAux : Nat → Nat → List Char
  | 0, _ => []
  | fuel + 1, n =>
    if n < 10 then [digitChar n]
    else natDecimalAux fuel (n / 10) ++ [digitChar (n % 10)]

/-- Decimal digits of a natural number (fuel `n + 1` always suffices,
since `n / 10` strictly decreases while `n ≥ 10`). -/
def natDecimal (n : Nat) : List Char := natDecimalAux (n + 1) n

/-- The text `std::printf` produces for an `int` under `%d`: an optional
minus sign followed by the decimal digits of the absolute value. -/
def intDecimal (n : Int) : List Char :=
  if n < 0 then '-' :: natDecimal (-n).toNat else natDecimal n.toNat

/-- Digits after the decimal point of the fraction `r / d` (with
`0 ≤ r < d`), by long division: emit `(r * 10) / d` and continue with
remainder `(r * 10) % d`, stopping at remainder zero or when the fuel
runs out.  On the terminating decimals this program produces, this is
the digit string the shortest round-trip display of the corresponding
double shows. -/
def fracDecimalN : Nat → Nat → Nat → List Char
  | 0, _, _ => []
  | fuel + 1, r, d =>
    if r = 0 then []
    else digitChar (r * 10 / d) :: fracDecimalN fuel (r * 10 % d) d

/-- The text `std::println`'s default `\x7b\x7d` formatter shows for the
double values this program computes, modelled over the exact rationals
those values denote: optional sign, integer part, and the fractional
digits after a point when the fractional part is nonzero (the formatter
omits the point for integral values). -/
def ratDecimal (q : ℚ) : List Char :=
  (if q.num < 0 then ['-'] else []) ++
    natDecimal (q.num.natAbs / q.den) ++
    (if q.num.natAbs % q.den = 0 then []
     else '.' :: fracDecimalN 17 (q.num.natAbs % q.den) q.den)

/-! ## Component A: src/all/test_package_old/main.cpp -/

/-- Source line 6: `int a = 5;`. -/
def aVal : Int := 5

/-- Source line 7: `int b = 12;`. -/
def bVal : Int := 12

/-- Source line 8: `int c = a + b;`. -/
def cVal : Int := aVal + bVal

/-- Bytes written by line 10, `std::puts("Hello, world!")`; `puts`
appends a newline to its argument. -/
def lineA1 : List Char := "Hello, world!".data ++ ['\n']

/-- Bytes written by line 11, `std::printf("a = %d, b = %d\n", a, b)`. -/
def lineA2 : List Char :=
  "a = ".data ++ intDecimal aVal ++ ", b = ".data ++ intDecimal bVal ++ ['\n']

/-- Bytes written by line 12, `std::printf("a + b = c = %d\n", c)`. -/
def lineA3 : List Char :=
  "a + b = c = ".data ++ intDecimal cVal ++ ['\n']

/-- Component A's `main`: the bytes it writes to standard output, paired
with its return value (line 14: `return 0;`). -/
def mainA : List Char × Int := (lineA1 ++ lineA2 ++ lineA3, 0)

/-! ## Component B: src/demos/cpp-modules/main.cpp -/

/-- The externally linked `test::sum`, at the two argument types the
program calls it at: `int` pairs and `double` pairs (doubles modelled as
the exact rationals of the source literals). -/
structure SumImpl where
  sumInt : Int → Int → Int
  sumFlt : ℚ → ℚ → ℚ

/-- `std::println(s)`: the bytes of `s` followed by a newline. -/
def printlnBytes (s : List Char) : List Char := s ++ ['\n']

/-- The double literal `7.2` of source line 12, as the exact rational it
denotes. -/
def lit72 : ℚ := 72 / 10

/-- The double literal `2.5` of source line 12, as the exact rational it
denotes. -/
def lit25 : ℚ := 25 / 10

/-- Bytes written by source line 8 of Component B. -/
def lineB1 : List Char :=
  printlnBytes "\n========== RUNNING MODULES DEMO ==========".data

/-- Bytes written by source line 9 of Component B. -/
def lineB2 : List Char := printlnBytes "GNU Toolchain Demo!".data

/-- Bytes written by source line 10 of Component B. -/
def lineB3 : List Char := printlnBytes "👋 Hello, 🌐 World".data

/-- Bytes written by source line 11 of Component B: the format text with
the formatted value of `test::sum(5, 6)` spliced in. -/
def lineB4 (t : SumImpl) : List Char :=
  printlnBytes ("sum(5, 6) = ".data ++ intDecimal (t.sumInt 5 6))

/-- Bytes written by source line 12 of Component B: the format text with
the formatted value of `test::sum(7.2, 2.5)` spliced in. -/
def lineB5 (t : SumImpl) : List Char :=
  printlnBytes ("sum(7.2, 2.5) = ".data ++ ratDecimal (t.sumFlt lit72 lit25))

/-- Bytes written by source line 13 of Component B. -/
def lineB6 : List Char :=
  printlnBytes "========== DEMO FINISHED ==========\n".data

/-- Component B's `main`, parameterised by the externally linked
`test::sum`: the bytes it writes to standard output, paired with its
return value (line 14: `return 0;`). -/
def mainB (t : SumImpl) : List Char × Int :=
  (lineB1 ++ lineB2 ++ lineB3 ++ lineB4 t ++ lineB5 t ++ lineB6, 0)

/-! ## Process-level view

Both `main` functions have the parameterless signature `int main()` and
neither reads the environment, so an invocation's command-line arguments
and environment variables are simply ignored. -/

/-- The inputs the operating system hands a process at invocation:
command-line arguments and environment variables. -/
structure Invocation where
  args : List (List Char)
  env : List (List Char × List Char)

/-- Running Component A in a given invocation context: `int main()`
takes no parameters and reads nothing, so the context is unused. -/
def invokeA (_σ : Invocation) : List Char × Int := mainA

/-- Running Component B in a given invocation context: `int main()`
takes no parameters and reads nothing, so the context is unused. -/
def invokeB (_σ : Invocation) (t : SumImpl) : List Char × Int := mainB t

/-! ## Operational view

Each `main` is a straight line of statements; this represents it as an
explicit statement list and runs it step by step, so that completion
(reaching `return`) and the number of steps taken are visible. -/

/-- A statement of these straight-line programs: a write to standard
output, or a `return`. -/
inductive Instr
  | write (s : List Char)
  | ret (code : Int)

/-- Component A as its statement list (source lines 10-14). -/
def progA : List Instr :=
  [.write lineA1, .write lineA2, .write lineA3, .ret 0]

/-- Component B as its statement list (source lines 8-14). -/
def progB (t : SumImpl) : List Instr :=
  [.write lineB1, .write lineB2, .write lineB3,
   .write (lineB4 t), .write (lineB5 t), .write lineB6, .ret 0]

/-- Run a statement list, accumulating standard output; `none` means the
run ended without reaching a `return` (the only abnormal way a run of
such a list can end). -/
def execInstrs : List Instr → List Char → Option (List Char × Int)
  | [], _ => none
  | .write s :: rest, out => execInstrs rest (out ++ s)
  | .ret code :: _, out => some (out, code)

/-- Run a statement list under a step budget: `none` when the budget is
exhausted before a `return` is reached. -/
def execFuel : Nat → List Instr → List Char → Option (List Char × Int)
  | 0, _, _ => none
  | _ + 1, [], _ => none
  | fuel + 1, .write s :: rest, out => execFuel fuel rest (out ++ s)
  | _ + 1, .ret code :: _, out => some (out, code)

/-- Number of newline bytes in a byte list, i.e. the number of
newline-terminated lines of the output it represents. -/
def newlineCount (l : List Char) : Nat := l.count '\n'

end Toolchain

namespace Toolchain

/-! ## Helper facts -/

/-- Appending the same tail to equal lists gives equal lists. -/
lemma append_left_congr (a : List Char) {x y : List Char} (h : x = y) :
    a ++ x = a ++ y := by rw [h]

/-- Merging the two leftmost blocks of an append chain. -/
lemma append_merge (x y z r : List Char) (h : x ++ y = z) :
    x ++ (y ++ r) = z ++ r := by rw [← List.append_assoc, h]

/-- Merging the seven leftmost blocks of an append chain. -/
lemma merge7 (a1 a2 a3 a4 a5 a6 a7 z r : List Char)
    (h : a1 ++ (a2 ++ (a3 ++ (a4 ++ (a5 ++ (a6 ++ a7))))) = z) :
    a1 ++ (a2 ++ (a3 ++ (a4 ++ (a5 ++ (a6 ++ (a7 ++ r)))))) = z ++ r := by
  subst h
  simp [List.append_assoc]

/-- The rational 97/10, in normalised numerator/denominator form. -/
def val97 : ℚ := ⟨97, 10, by norm_num, by norm_num⟩

lemma val97_eq : val97 = (97 : ℚ) / 10 := by
  rw [← Rat.num_div_den val97]
  norm_num [val97]

/-- The exact sum of the two double literals of source line 12. -/
lemma lit_sum : lit72 + lit25 = val97 := by
  rw [lit72, lit25, val97_eq]
  norm_num

lemma digitChar_ne_newline (d : Nat) : digitChar d ≠ '\n' := by
  unfold digitChar
  split <;> decide

lemma newline_not_mem_natDecimalAux (fuel : Nat) :
    ∀ n : Nat, '\n' ∉ natDecimalAux fuel n := by
  induction fuel with
  | zero => intro n h; simp [natDecimalAux] at h
  | succ f ih =>
    intro n
    rw [natDecimalAux]
    split
    · intro h
      exact digitChar_ne_newline n (List.mem_singleton.mp h).symm
    · intro h
      rcases List.mem_append.mp h with h | h
      · exact ih (n / 10) h
      · exact digitChar_ne_newline (n % 10) (List.mem_singleton.mp h).symm

lemma newline_not_mem_natDecimal (n : Nat) : '\n' ∉ natDecimal n :=
  newline_not_mem_natDecimalAux (n + 1) n

lemma newline_not_mem_intDecimal (n : Int) : '\n' ∉ intDecimal n := by
  rw [intDecimal]
  split
  · intro h
    rcases List.mem_cons.mp h with h | h
    · exact absurd h (by decide)
    · exact newline_not_mem_natDecimal _ h
  · exact newline_not_mem_natDecimal _

lemma newline_not_mem_fracDecimalN (fuel : Nat) :
    ∀ r d : Nat, '\n' ∉ fracDecimalN fuel r d := by
  induction fuel with
  | zero => intro r d h; simp [fracDecimalN] at h
  | succ f ih =>
    intro r d
    rw [fracDecimalN]
    split
    · simp
    · intro h
      rcases List.mem_cons.mp h with h | h
      · exact digitChar_ne_newline _ h.symm
      · exact ih _ _ h

lemma newline_not_mem_ratDecimal (q : ℚ) : '\n' ∉ ratDecimal q := by
  intro h
  rw [ratDecimal] at h
  rcases List.mem_append.mp h with h | h
  · rcases List.mem_append.mp h with h | h
    · revert h
      split
      · intro h
        exact absurd (List.mem_singleton.mp h) (by decide)
      · intro h
        simp at h
    · exact newline_not_mem_natDecimal _ h
  · revert h
    split
    · intro h
      simp at h
    · intro h
      rcases List.mem_cons.mp h with h | h
      · exact absurd h (by decide)
      · exact newline_not_mem_fracDecimalN _ _ _ h

/-- The concrete bytes preceding Component B's first formatted value. -/
def preB : List Char :=
  "\n========== RUNNING MODULES DEMO ==========\nGNU Toolchain Demo!\n👋 Hello, 🌐 World\nsum(5, 6) = ".data

/-- The concrete bytes between Component B's two formatted values. -/
def midB : List Char := "\nsum(7.2, 2.5) = ".data

/-- The concrete bytes following Component B's second formatted value. -/
def sufB : List Char := "\n========== DEMO FINISHED ==========\n\n".data

/-- Component B's output splits as concrete text around the two
formatted `test::sum` results. -/
lemma mainB_decomp (t : SumImpl) :
    (mainB t).1 =
      preB ++ (intDecimal (t.sumInt 5 6) ++
        (midB ++ (ratDecimal (t.sumFlt lit72 lit25) ++ sufB))) := by
  have e : (mainB t).1 =
      lineB1 ++ lineB2 ++ lineB3 ++ lineB4 t ++ lineB5 t ++ lineB6 := rfl
  rw [e]
  simp only [lineB1, lineB2, lineB3, lineB4, lineB5, lineB6, printlnBytes,
    List.append_assoc]
  refine (merge7 _ _ _ _ _ _ _ preB _ (by decide)).trans ?_
  refine append_left_congr preB ?_
  refine append_left_congr _ ?_
  refine (append_merge _ _ midB _ (by decide)).trans ?_
  refine append_left_congr midB ?_
  exact append_left_congr _ (by decide)

end Toolchain

namespace Toolchain

/-! ## Claims -/

/-- Claim C1: invoked with no input, Component A's standard output equals
exactly the three fixed lines — the greeting, the line showing a = 5 and
b = 12, and the line showing their sum 17 — in that order and nothing
else (and its result is 0). -/
theorem componentA_output_exact :
    mainA = ("Hello, world!\na = 5, b = 12\na + b = c = 17\n".data, 0) := by
  decide

/-- Claim C2: when the externally linked `test::sum` returns the
arithmetic sum of its two arguments, Component B's standard output
contains the line `sum(5, 6) = 11` and the line `sum(7.2, 2.5) = 9.7`. -/
theorem componentB_sum_lines (t : SumImpl)
    (hI : ∀ x y : Int, t.sumInt x y = x + y)
    (hF : ∀ x y : ℚ, t.sumFlt x y = x + y) :
    "\nsum(5, 6) = 11\n".data <:+: (mainB t).1 ∧
      "\nsum(7.2, 2.5) = 9.7\n".data <:+: (mainB t).1 := by
  have hIc : intDecimal (t.sumInt 5 6) = "11".data := by
    rw [hI]
    decide
  have hRc : ratDecimal (t.sumFlt lit72 lit25) = "9.7".data := by
    rw [hF, lit_sum]
    decide
  rw [mainB_decomp, hIc, hRc]
  exact ⟨by decide, by decide⟩

/-- Witness for claim C2, at the implementation that adds its
arguments. -/
theorem componentB_sum_lines_witness :
    "\nsum(5, 6) = 11\n".data <:+:
        (mainB ⟨fun x y => x + y, fun x y => x + y⟩).1 ∧
      "\nsum(7.2, 2.5) = 9.7\n".data <:+:
        (mainB ⟨fun x y => x + y, fun x y => x + y⟩).1 :=
  componentB_sum_lines ⟨fun x y => x + y, fun x y => x + y⟩
    (fun _ _ => rfl) (fun _ _ => rfl)

/-- Claim C3: both programs return exit code 0 unconditionally — the
embedding's result component is 0 for Component A and for Component B
under every external `test::sum`. -/
theorem programs_exit_zero :
    mainA.2 = 0 ∧ ∀ t : SumImpl, (mainB t).2 = 0 :=
  ⟨rfl, fun _ => rfl⟩

/-- Claim C4: any two invocations (with the same external `test::sum`
for Component B) produce byte-identical standard output and the same
exit code; no hidden state influences a run. -/
theorem repeated_invocations_identical :
    ∀ (σ₁ σ₂ : Invocation) (t : SumImpl),
      invokeA σ₁ = invokeA σ₂ ∧ invokeB σ₁ t = invokeB σ₂ t :=
  fun _ _ _ => ⟨rfl, rfl⟩

/-- Claim C5: the value printed on Component A's third output line is
the sum of the two values printed on its second line: the third line
shows the digits of `aVal + bVal`, and `cVal = aVal + bVal`. -/
theorem printed_sum_invariant :
    cVal = aVal + bVal ∧
      mainA.1 =
        lineA1 ++
          ("a = ".data ++ intDecimal aVal ++ ", b = ".data ++
            intDecimal bVal ++ ['\n']) ++
          ("a + b = c = ".data ++ intDecimal (aVal + bVal) ++ ['\n']) :=
  ⟨rfl, rfl⟩

/-- Claim C6: neither program has a reachable failure path: running each
statement list from an empty output reaches its `return` statement (the
run does not fall off the end or stop abnormally), yielding the normal
result. -/
theorem straight_line_no_failure :
    execInstrs progA [] = some mainA ∧
      ∀ t : SumImpl, execInstrs (progB t) [] = some (mainB t) :=
  ⟨rfl, fun _ => rfl⟩

/-- Claim C7: each program terminates in one linear pass: running its
statement list with a step budget equal to the number of its statements
already completes with the normal result. -/
theorem single_pass_termination :
    execFuel progA.length progA [] = some mainA ∧
      ∀ t : SumImpl, execFuel (progB t).length (progB t) [] = some (mainB t) :=
  ⟨rfl, fun _ => rfl⟩

/-- Claim C8: Component B writes a fixed number of newline-terminated
lines — eight — whatever values the external `test::sum` returns. -/
theorem componentB_fixed_line_count (t : SumImpl) :
    newlineCount (mainB t).1 = 8 := by
  rw [newlineCount, mainB_decomp]
  simp only [List.count_append]
  rw [List.count_eq_zero.mpr (newline_not_mem_intDecimal _),
    List.count_eq_zero.mpr (newline_not_mem_ratDecimal _)]
  decide

/-- Claim C9: standard output and exit code are identical across any two
invocations that differ only in command-line arguments or environment
variables. -/
theorem args_env_noninterference :
    ∀ (a₁ a₂ : List (List Char)) (e₁ e₂ : List (List Char × List Char))
      (t : SumImpl),
      invokeA ⟨a₁, e₁⟩ = invokeA ⟨a₂, e₂⟩ ∧
        invokeB ⟨a₁, e₁⟩ t = invokeB ⟨a₂, e₂⟩ t :=
  fun _ _ _ _ _ => ⟨rfl, rfl⟩

/-- Claim C10: byte-level shape of Component B's output: it begins with
an empty line and ends with an empty line, and its fixed decorative
lines are exactly the RUNNING MODULES DEMO banner, the GNU Toolchain
greeting, the UTF-8 hello-world line, and the DEMO FINISHED banner. -/
theorem componentB_output_shape (t : SumImpl) :
    ((mainB t).1).head? = some '\n' ∧
      ['\n', '\n'] <:+ (mainB t).1 ∧
      "\n========== RUNNING MODULES DEMO ==========\n".data <+: (mainB t).1 ∧
      "\nGNU Toolchain Demo!\n".data <:+: (mainB t).1 ∧
      "\n👋 Hello, 🌐 World\n".data <:+: (mainB t).1 ∧
      "\n========== DEMO FINISHED ==========\n\n".data <:+ (mainB t).1 := by
  refine ⟨rfl, ?_, ?_, ?_, ?_, ?_⟩
  · refine ⟨preB ++ (intDecimal (t.sumInt 5 6) ++
      (midB ++ (ratDecimal (t.sumFlt lit72 lit25) ++
        "\n========== DEMO FINISHED ==========".data))), ?_⟩
    rw [mainB_decomp]
    simp only [List.append_assoc]
    exact append_left_congr preB (append_left_congr _
      (append_left_congr midB (append_left_congr _ (by decide))))
  · refine ⟨"GNU Toolchain Demo!\n👋 Hello, 🌐 World\nsum(5, 6) = ".data ++
      (intDecimal (t.sumInt 5 6) ++
        (midB ++ (ratDecimal (t.sumFlt lit72 lit25) ++ sufB))), ?_⟩
    rw [mainB_decomp]
    exact append_merge _ _ preB _ (by decide)
  · refine ⟨"\n========== RUNNING MODULES DEMO ==========".data,
      "👋 Hello, 🌐 World\nsum(5, 6) = ".data ++
        (intDecimal (t.sumInt 5 6) ++
          (midB ++ (ratDecimal (t.sumFlt lit72 lit25) ++ sufB))), ?_⟩
    rw [mainB_decomp]
    symm
    exact append_merge
      ("\n========== RUNNING MODULES DEMO ==========".data ++
        "\nGNU Toolchain Demo!\n".data)
      "👋 Hello, 🌐 World\nsum(5, 6) = ".data preB _ (by decide)
  · refine ⟨"\n========== RUNNING MODULES DEMO ==========\nGNU Toolchain Demo!".data,
      "sum(5, 6) = ".data ++
        (intDecimal (t.sumInt 5 6) ++
          (midB ++ (ratDecimal (t.sumFlt lit72 lit25) ++ sufB))), ?_⟩
    rw [mainB_decomp]
    symm
    exact append_merge
      ("\n========== RUNNING MODULES DEMO ==========\nGNU Toolchain Demo!".data ++
        "\n👋 Hello, 🌐 World\n".data)
      "sum(5, 6) = ".data preB _ (by decide)
  · refine ⟨preB ++ (intDecimal (t.sumInt 5 6) ++
      (midB ++ ratDecimal (t.sumFlt lit72 lit25))), ?_⟩
    rw [mainB_decomp]
    simp only [sufB, List.append_assoc]

end Toolchain
